import Mathlib

/-!
Verification development for the LispEx syntax analyzer (`parser.go`).

The raw/AST node model and the parse functions below are a shallow
embedding of the Go source.  Go's `panic(...)` error reporting is
modelled by `Except.error` carrying the static part of the panic
message (the rendering of the offending fragment is omitted).

The mutual recursion of the source is made structural with an explicit
fuel argument: every function consumes exactly one unit of fuel per
call and yields `none` when the fuel runs out.  The source functions
terminate on every input (each call descends into the input tree, or
keeps the same list while switching to a phase that must descend next),
so `none` only reflects insufficient fuel, never behavior of the
source; all theorems below either hold for every fuel or take the
produced `some` outcome as a hypothesis.

Go's statement sequence `elements[1] = node; return tuple` — an
in-place write into the input tuple's backing array followed by
returning that same tuple — is modelled by returning the tuple value
with its second element replaced; consequently, whenever the model's
result differs from the input list, the source performed a
value-changing in-place write into the caller's tuple.
-/

namespace LispEx

/-- Raw nodes and AST nodes of the `ast` package.  The Go package keeps
raw data (`Name`, `Tuple`, literal values) and analyzed forms in one
`ast.Node` interface; we mirror that with a single inductive.  `Number`
stands for the lexer's literal scalar values. -/
inductive Node where
  | Name (identifier : String)
  | Number (value : Int)
  | Tuple (elements : List Node)
  | Pair (first second : Node)
  | NilPair
  | Define (pattern : Node) (value : Node)
  | Function (caller : Node) (lambda : Node)
  | Lambda (params : Node) (body : Node)
  | Block (exprs : List Node)
  | Begin (block : Node)
  | Call (callee : Node) (args : List Node)
  | Apply (proc : Node) (args : List Node)
  | If (test : Node) (thenExpr : Node) (elseExpr : Option Node)
  | Set (pattern : Node) (value : Node)
  | Let (patterns : List Node) (exprs : List Node) (body : Node)
  | LetStar (patterns : List Node) (exprs : List Node) (body : Node)
  | LetRec (patterns : List Node) (exprs : List Node) (body : Node)
  | Quote (datum : Node)
  | Quasiquote (datum : Node)
  | Unquote (expr : Node)
  | UnquoteSplicing (expr : Node)
  | Delay (expr : Node)
  | Force (expr : Node)
  | Go (expr : Node)
  | Select (clauses : List (List Node))
  deriving Repr

/-- Result of a parse step: `none` when the fuel ran out, otherwise the
source's outcome (an AST value or a panic message). -/
abbrev PResult (α : Type) := Option (Except String α)

/-- Successful outcome. -/
def pok {α : Type} (a : α) : PResult α := some (Except.ok a)

/-- Syntax-error outcome (a `panic` in the Go source). -/
def perr {α : Type} (msg : String) : PResult α := some (Except.error msg)

/-- Sequencing of parse steps: errors and fuel exhaustion propagate. -/
def pbind {α β : Type} : PResult α → (α → PResult β) → PResult β
  | none, _ => none
  | some (Except.error msg), _ => some (Except.error msg)
  | some (Except.ok a), f => f a

/-- Whether a parse outcome is a successfully produced AST value. -/
def isOkP {α : Type} : PResult α → Bool
  | some (Except.ok _) => true
  | _ => false

/-- Whether a parse outcome is a syntax error (a Go panic). -/
def isErrP {α : Type} : PResult α → Bool
  | some (Except.error _) => true
  | _ => false

/-- Modelled from the spec: the `constants` package is not under `src/`;
these are the keyword strings the dispatcher matches on (glossary and
§4 of the spec). -/
def DEFINE : String := "define"

def BEGIN : String := "begin"

def LAMBDA : String := "lambda"

def LET : String := "let"

def LET_STAR : String := "let*"

def LET_REC : String := "letrec"

def GO : String := "go"

def SELECT : String := "select"

def IF : String := "if"

def SET : String := "set!"

def APPLY : String := "apply"

def QUOTE : String := "quote"

def QUASIQUOTE : String := "quasiquote"

def UNQUOTE : String := "unquote"

def UNQUOTE_SPLICING : String := "unquote-splicing"

def DELAY : String := "delay"

def FORCE : String := "force"

def CHAN_SEND : String := "chan-send"

def CHAN_RECV : String := "chan-recv"

def DEFAULT : String := "default"

/-- Modelled from the spec: `ExpandFormals` (Formal-List Expander, §4.2)
is part of the parser package but not under `src/`.  A flat sequence of
identifiers yields a pair-chain of fixed parameters terminated by the
empty-list marker; a sequence ending with a dotted tail identifier
yields the pair-chain with the rest name as final tail; a lone dotted
tail `(. x)` yields the bare rest name (which `ParseLambda` rejects). -/
def ExpandFormals : List Node → Node
  | [] => Node.NilPair
  | [x] => Node.Pair x Node.NilPair
  | x :: rest =>
    match x, rest with
    | Node.Name ".", [r] => r
    | _, _ => Node.Pair x (ExpandFormals rest)

/-- Modelled from the spec: `ExpandList` (List-Literal Expander, §4.7)
is part of the parser package but not under `src/`.  It converts a raw
list datum into an explicit pair-chain terminated by the empty-list
marker, recursively for nested lists, preserving atoms unchanged. -/
def ExpandList : List Node → Node
  | [] => Node.NilPair
  | Node.Tuple inner :: rest => Node.Pair (ExpandList inner) (ExpandList rest)
  | x :: rest => Node.Pair x (ExpandList rest)

/-- `ParseQuote` (parser.go:216-231); it performs no recursive
analysis, so it takes no fuel. -/
def ParseQuote : List Node → PResult Node
  | [_, Node.Tuple inner] => pok (Node.Quote (ExpandList inner))
  | [_, d] => pok (Node.Quote d)
  | _ => perr "quote: wrong number of parts"

mutual

/-- `ParseNode` (parser.go:19-80): the Special-Form Dispatcher.  The Go
function first tests `node.(*ast.Tuple)` and returns non-list nodes
unchanged; the list case is split off as `ParseTuple`. -/
def ParseNode : Nat → Node → PResult Node
  | 0, _ => none
  | fuel + 1, Node.Tuple elements => ParseTuple fuel elements
  | _ + 1, node => pok node

/-- The list branch of `ParseNode` (parser.go:24-79): keyword dispatch
over the head element. -/
def ParseTuple : Nat → List Node → PResult Node
  | 0, _ => none
  | _ + 1, [] => perr "syntax error, empty list"
  | fuel + 1, Node.Name id :: rest =>
    if id = DEFINE then ParseDefine fuel (Node.Name id :: rest)
    else if id = BEGIN then ParseBegin fuel (Node.Name id :: rest)
    else if id = LAMBDA then ParseLambda fuel (Node.Name id :: rest)
    else if id = LET then ParseLetFamily fuel (Node.Name id :: rest)
    else if id = LET_STAR then ParseLetFamily fuel (Node.Name id :: rest)
    else if id = LET_REC then ParseLetFamily fuel (Node.Name id :: rest)
    else if id = GO then ParseGo fuel (Node.Name id :: rest)
    else if id = SELECT then ParseSelect fuel (Node.Name id :: rest)
    else if id = IF then ParseIf fuel (Node.Name id :: rest)
    else if id = SET then ParseSet fuel (Node.Name id :: rest)
    else if id = APPLY then ParseApply fuel (Node.Name id :: rest)
    else if id = QUOTE then ParseQuote (Node.Name id :: rest)
    else if id = QUASIQUOTE then ParseQuasiquote fuel (Node.Name id :: rest) 1
    else if id = UNQUOTE then perr "unquote: not in quasiquote"
    else if id = UNQUOTE_SPLICING then perr "unquote-splicing: not in quasiquote"
    else if id = DELAY then ParseDelay fuel (Node.Name id :: rest)
    else if id = FORCE then ParseForce fuel (Node.Name id :: rest)
    else ParseCall fuel (Node.Name id :: rest)
  | fuel + 1, Node.Tuple inner :: rest => ParseCall fuel (Node.Tuple inner :: rest)
  | _ + 1, _ :: _ => perr "not a procedure"

/-- `ParseList` (parser.go:82-88): analyze a sequence of raw nodes in
left-to-right order. -/
def ParseList : Nat → List Node → PResult (List Node)
  | 0, _ => none
  | _ + 1, [] => pok []
  | fuel + 1, n :: rest =>
    pbind (ParseNode fuel n) fun v =>
    pbind (ParseList fuel rest) fun vs =>
    pok (v :: vs)

/-- `ParseBegin` (parser.go:96-102). -/
def ParseBegin : Nat → List Node → PResult Node
  | 0, _ => none
  | fuel + 1, _ :: rest =>
    pbind (ParseList fuel rest) fun exprs =>
    pok (Node.Begin (Node.Block exprs))
  | _ + 1, [] => perr "begin: unreachable"

/-- `ParseGo` (parser.go:104-113). -/
def ParseGo : Nat → List Node → PResult Node
  | 0, _ => none
  | fuel + 1, [_, e] =>
    pbind (ParseNode fuel e) fun v =>
    pok (Node.Go v)
  | _ + 1, _ => perr "go: bad syntax, only expected 1 expression"

/-- `ParseApply` (parser.go:115-126). -/
def ParseApply : Nat → List Node → PResult Node
  | 0, _ => none
  | fuel + 1, _ :: p :: a :: rest =>
    pbind (ParseNode fuel p) fun proc =>
    pbind (ParseList fuel (a :: rest)) fun args =>
    pok (Node.Apply proc args)
  | _ + 1, _ => perr "apply: bad syntax (missing expressions), expected at least 3"

/-- `ParseSelect` (parser.go:128-168). -/
def ParseSelect : Nat → List Node → PResult Node
  | 0, _ => none
  | fuel + 1, _ :: c :: cs =>
    pbind (ParseSelectClauses fuel (c :: cs)) fun clauses =>
    pok (Node.Select clauses)
  | _ + 1, _ => perr "select: bad syntax (missing clauses), expected at least 1"

/-- The clause loop of `ParseSelect` (parser.go:139-167). -/
def ParseSelectClauses : Nat → List Node → PResult (List (List Node))
  | 0, _ => none
  | _ + 1, [] => pok []
  | _ + 1, Node.Tuple [] :: _ => perr "select: bad syntax (missing select cases), given: ()"
  | fuel + 1, Node.Tuple (e :: es) :: rest =>
    pbind (ParseList fuel (e :: es)) fun parsed =>
    match parsed with
    | Node.Call (Node.Name id) args :: _ =>
      if id = CHAN_SEND then
        if args.length = 2 then
          pbind (ParseSelectClauses fuel rest) fun others =>
          pok (parsed :: others)
        else perr (CHAN_SEND ++ ": arguments mismatch, expected 2")
      else if id = CHAN_RECV then
        if args.length = 1 then
          pbind (ParseSelectClauses fuel rest) fun others =>
          pok (parsed :: others)
        -- the source reports this arity error under the send keyword
        else perr (CHAN_SEND ++ ": arguments mismatch, expected 1")
      else perr "select: bad syntax, given: "
    | Node.Name id :: _ =>
      if id = DEFAULT then
        pbind (ParseSelectClauses fuel rest) fun others =>
        pok (parsed :: others)
      else perr "select: bad syntax, given: "
    | _ => perr "select: bad syntax, given: "
  | _ + 1, _ :: _ => perr "select: bad syntax, given: "

/-- `ParseLetFamily` (parser.go:171-214). -/
def ParseLetFamily : Nat → List Node → PResult Node
  | 0, _ => none
  | fuel + 1, e0 :: Node.Tuple bindings :: b :: rest =>
    pbind (ParseBindings fuel bindings) fun pats =>
    pbind (ParseList fuel (b :: rest)) fun body =>
    match e0 with
    | Node.Name id =>
      if id = LET then pok (Node.Let pats.1 pats.2 (Node.Block body))
      else if id = LET_STAR then pok (Node.LetStar pats.1 pats.2 (Node.Block body))
      else if id = LET_REC then pok (Node.LetRec pats.1 pats.2 (Node.Block body))
      else perr "should not be here"
    | _ => perr "should not be here"
  | _ + 1, _ :: _ :: _ :: _ => perr "bad syntax, expected bindings"
  | _ + 1, _ => perr "bad syntax, no expression in body"

/-- The binding loop of `ParseLetFamily` (parser.go:186-200): builds the
parallel pattern and initializer sequences in original order. -/
def ParseBindings : Nat → List Node → PResult (List Node × List Node)
  | 0, _ => none
  | _ + 1, [] => pok ([], [])
  | fuel + 1, Node.Tuple [Node.Name x, e] :: rest =>
    pbind (ParseNode fuel e) fun v =>
    pbind (ParseBindings fuel rest) fun pv =>
    pok (Node.Name x :: pv.1, v :: pv.2)
  | _ + 1, _ :: _ => perr "bad syntax, not an identifer and expression for a binding"

/-- `ParseQuasiquote` (parser.go:233-269).  In the `level > 1` branch
the source executes `elements[1] = node; return tuple`: it overwrites
the second slot of the input tuple's backing array and returns that
same tuple; here that post-write tuple value is returned. -/
def ParseQuasiquote : Nat → List Node → Int → PResult Node
  | 0, _, _ => none
  | fuel + 1, [e0, Node.Tuple inner], level =>
    pbind (ParseNestedQuasiquote fuel inner level) fun node =>
    if level > 1 then
      pok (Node.Tuple [e0, node])
    else
      match node with
      | Node.Tuple inner2 => pok (Node.Quasiquote (ExpandList inner2))
      | _ => pok (Node.Quasiquote node)
  | _ + 1, [_, e1], _ => pok (Node.Quasiquote e1)
  | _ + 1, _, _ => perr "quasiquote: wrong number of parts"

/-- `ParseNestedQuasiquote` (parser.go:271-302): the Quasiquote Level
Engine's scan of one list at the given nesting level. -/
def ParseNestedQuasiquote : Nat → List Node → Int → PResult Node
  | 0, _, _ => none
  | _ + 1, [], _ => pok (Node.Tuple [])
  | fuel + 1, Node.Name id :: rest, level =>
    if id = UNQUOTE then ParseUnquote fuel (Node.Name id :: rest) (level - 1)
    else if id = UNQUOTE_SPLICING then ParseUnquoteSplicing fuel (Node.Name id :: rest) (level - 1)
    else if id = QUASIQUOTE then ParseQuasiquote fuel (Node.Name id :: rest) (level + 1)
    else
      pbind (ScanElements fuel (Node.Name id :: rest) level) fun slice =>
      pok (Node.Tuple slice)
  | fuel + 1, e0 :: rest, level =>
    pbind (ScanElements fuel (e0 :: rest) level) fun slice =>
    pok (Node.Tuple slice)

/-- The element loop of `ParseNestedQuasiquote` (parser.go:294-300):
each element that is itself a list is rescanned at the unchanged level,
other elements are kept untouched. -/
def ScanElements : Nat → List Node → Int → PResult (List Node)
  | 0, _, _ => none
  | _ + 1, [], _ => pok []
  | fuel + 1, Node.Tuple inner :: rest, level =>
    pbind (ParseNestedQuasiquote fuel inner level) fun n2 =>
    pbind (ScanElements fuel rest level) fun rest2 =>
    pok (n2 :: rest2)
  | fuel + 1, n :: rest, level =>
    pbind (ScanElements fuel rest level) fun rest2 =>
    pok (n :: rest2)

/-- `ParseUnquote` (parser.go:304-317).  In the nonzero-level branch
the source executes `elements[1] = ParseNestedQuasiquote(...)` (when
the datum is a list) and returns the same tuple; the post-write tuple
value is returned here. -/
def ParseUnquote : Nat → List Node → Int → PResult Node
  | 0, _, _ => none
  | fuel + 1, [e0, Node.Tuple inner], level =>
    if level = 0 then
      pbind (ParseNode fuel (Node.Tuple inner)) fun v =>
      pok (Node.Unquote v)
    else
      pbind (ParseNestedQuasiquote fuel inner level) fun n =>
      pok (Node.Tuple [e0, n])
  | fuel + 1, [e0, e1], level =>
    if level = 0 then
      pbind (ParseNode fuel e1) fun v =>
      pok (Node.Unquote v)
    else pok (Node.Tuple [e0, e1])
  | _ + 1, _, _ => perr "unquote: wrong number of parts"

/-- `ParseUnquoteSplicing` (parser.go:319-332): same shape as
`ParseUnquote` with the `UnquoteSplicing` wrapper. -/
def ParseUnquoteSplicing : Nat → List Node → Int → PResult Node
  | 0, _, _ => none
  | fuel + 1, [e0, Node.Tuple inner], level =>
    if level = 0 then
      pbind (ParseNode fuel (Node.Tuple inner)) fun v =>
      pok (Node.UnquoteSplicing v)
    else
      pbind (ParseNestedQuasiquote fuel inner level) fun n =>
      pok (Node.Tuple [e0, n])
  | fuel + 1, [e0, e1], level =>
    if level = 0 then
      pbind (ParseNode fuel e1) fun v =>
      pok (Node.UnquoteSplicing v)
    else pok (Node.Tuple [e0, e1])
  | _ + 1, _, _ => perr "unquote-splicing: wrong number of parts"

/-- `ParseDefine` (parser.go:334-360). -/
def ParseDefine : Nat → List Node → PResult Node
  | 0, _ => none
  | fuel + 1, [_, Node.Name x, v] =>
    pbind (ParseNode fuel v) fun value =>
    pok (Node.Define (Node.Name x) value)
  | _ + 1, _ :: Node.Name _ :: _ :: _ :: _ => perr "define: bad syntax (multiple expressions)"
  | fuel + 1, _ :: Node.Tuple inner :: v :: rest =>
    pbind (ParseList fuel (v :: rest)) fun body =>
    pbind (ParseFunction fuel inner (Node.Block body)) fun fn =>
    match fn with
    | Node.Function caller _ => pok (Node.Define caller fn)
    | _ => perr "define: unreachable"
  | _ + 1, _ :: _ :: _ :: _ => perr "unsupported parser type"
  | _ + 1, _ => perr "define: bad syntax (missing expressions)"

/-- `ParseFunction` (parser.go:362-384): the curried-define loop.  Each
step takes the parameter list from the elements after the head and
either terminates on an identifier head or unwraps one more layer,
nesting the lambda built so far as the new body. -/
def ParseFunction : Nat → List Node → Node → PResult Node
  | 0, _, _ => none
  | _ + 1, Node.Name x :: rest, tail =>
    pok (Node.Function (Node.Name x) (Node.Lambda (ExpandFormals rest) tail))
  | fuel + 1, Node.Tuple inner :: rest, tail =>
    ParseFunction fuel inner (Node.Lambda (ExpandFormals rest) tail)
  | _ + 1, _ :: _, _ => perr "unsupported parser type"
  | _ + 1, [], _ => perr "function: unreachable"

/-- `ParseCall` (parser.go:386-394). -/
def ParseCall : Nat → List Node → PResult Node
  | 0, _ => none
  | _ + 1, [] => perr "missing procedure expression"
  | fuel + 1, c :: args =>
    pbind (ParseNode fuel c) fun callee =>
    pbind (ParseList fuel args) fun vs =>
    pok (Node.Call callee vs)

/-- `ParseLambda` (parser.go:396-425). -/
def ParseLambda : Nat → List Node → PResult Node
  | 0, _ => none
  | fuel + 1, _ :: pattern :: b :: rest =>
    pbind (ParseList fuel (b :: rest)) fun body =>
    match pattern with
    | Node.Name x => pok (Node.Lambda (Node.Name x) (Node.Block body))
    | Node.Tuple inner =>
      match ExpandFormals inner with
      | Node.Pair x y => pok (Node.Lambda (Node.Pair x y) (Node.Block body))
      | Node.NilPair => pok (Node.Lambda Node.NilPair (Node.Block body))
      | _ => perr "lambda: illegal use of dot"
    | _ => perr "unsupported parser type"
  | _ + 1, _ => perr "lambda: bad syntax"

/-- `ParseIf` (parser.go:427-440). -/
def ParseIf : Nat → List Node → PResult Node
  | 0, _ => none
  | fuel + 1, [_, t, th] =>
    pbind (ParseNode fuel t) fun test =>
    pbind (ParseNode fuel th) fun thenExpr =>
    pok (Node.If test thenExpr none)
  | fuel + 1, [_, t, th, e] =>
    pbind (ParseNode fuel t) fun test =>
    pbind (ParseNode fuel th) fun thenExpr =>
    pbind (ParseNode fuel e) fun elseExpr =>
    pok (Node.If test thenExpr (some elseExpr))
  | _ + 1, _ => perr "incorrect format of if"

/-- `ParseSet` (parser.go:442-453). -/
def ParseSet : Nat → List Node → PResult Node
  | 0, _ => none
  | fuel + 1, [_, p, v] =>
    pbind (ParseNode fuel p) fun pattern =>
    match pattern with
    | Node.Name x =>
      pbind (ParseNode fuel v) fun value =>
      pok (Node.Set (Node.Name x) value)
    | _ => perr "set!: not an indentifier"
  | _ + 1, _ => perr "incorrect format of set!"

/-- `ParseDelay` (parser.go:455-461). -/
def ParseDelay : Nat → List Node → PResult Node
  | 0, _ => none
  | fuel + 1, [_, e] =>
    pbind (ParseNode fuel e) fun v =>
    pok (Node.Delay v)
  | _ + 1, _ => perr "delay: bad syntax"

/-- `ParseForce` (parser.go:463-469). -/
def ParseForce : Nat → List Node → PResult Node
  | 0, _ => none
  | fuel + 1, [_, e] =>
    pbind (ParseNode fuel e) fun v =>
    pok (Node.Force v)
  | _ + 1, _ => perr "force: argument number mismatch, expected 1"

end

/-- Whether a node is a raw list (`*ast.Tuple` in the source). -/
def IsTuple : Node → Bool
  | Node.Tuple _ => true
  | _ => false

/-- Whether a node is an identifier (`*ast.Name` in the source). -/
def IsName : Node → Bool
  | Node.Name _ => true
  | _ => false

/-- The keyword strings recognized by the dispatcher's switch
(parser.go:31-67). -/
def specialForms : List String :=
  [DEFINE, BEGIN, LAMBDA, LET, LET_STAR, LET_REC, GO, SELECT, IF, SET,
   APPLY, QUOTE, QUASIQUOTE, UNQUOTE, UNQUOTE_SPLICING, DELAY, FORCE]

/-- The select-clause head contract (spec §4.6): the first analyzed
element is a channel-send call with exactly 2 arguments, a
channel-receive call with exactly 1 argument, or the `default`
identifier. -/
def HeadOk : List Node → Bool
  | Node.Call (Node.Name id) args :: _ =>
    (id = CHAN_SEND && args.length = 2) || (id = CHAN_RECV && args.length = 1)
  | Node.Name id :: _ => id = DEFAULT
  | _ => false

/-- The let-binding shape contract: a two-element list whose first
element is an identifier. -/
def BindingOk : Node → Bool
  | Node.Tuple [Node.Name _, _] => true
  | _ => false

/-- The let-family AST node selected by the keyword. -/
def MakeLet (id : String) (ps vs : List Node) (body : Node) : Node :=
  if id = LET then Node.Let ps vs body
  else if id = LET_STAR then Node.LetStar ps vs body
  else Node.LetRec ps vs body

/-- Removes the syntactic sugar that distinguishes the curried-define
result from the explicit-lambda result: `Function` wrappers and
single-expression `Block` wrappers are erased, recursively through
lambda bodies. -/
def StripSugar : Node → Node
  | Node.Function _ l => StripSugar l
  | Node.Lambda p b => Node.Lambda p (StripSugar b)
  | Node.Block [e] => StripSugar e
  | n => n

/-- Claim C1: while scanning a quasiquote template at level `L` (at
least 1), an `unquote` or `unquote-splicing` form is evaluated at level
`L - 1`: at resulting level 0 its single datum is fully analyzed by the
dispatcher and wrapped as `Unquote` (resp. `UnquoteSplicing`); at a
still-positive resulting level the form is kept as literal structural
data with its datum, when a list, rescanned at that level; and a nested
quasiquote form is scanned at level `L + 1`. -/
theorem claim1_unquote_level_engine (fuel : Nat) (d : Node) (L : Int) (hL : 1 ≤ L) :
    (ParseNestedQuasiquote (fuel + 1) [Node.Name UNQUOTE, d] L
        = ParseUnquote fuel [Node.Name UNQUOTE, d] (L - 1)
      ∧ ParseNestedQuasiquote (fuel + 1) [Node.Name UNQUOTE_SPLICING, d] L
        = ParseUnquoteSplicing fuel [Node.Name UNQUOTE_SPLICING, d] (L - 1))
    ∧ (L = 1 →
        ParseUnquote (fuel + 1) [Node.Name UNQUOTE, d] (L - 1)
          = pbind (ParseNode fuel d) (fun v => pok (Node.Unquote v))
        ∧ ParseUnquoteSplicing (fuel + 1) [Node.Name UNQUOTE_SPLICING, d] (L - 1)
          = pbind (ParseNode fuel d) (fun v => pok (Node.UnquoteSplicing v)))
    ∧ (2 ≤ L →
        ParseUnquote (fuel + 1) [Node.Name UNQUOTE, d] (L - 1)
          = (match d with
             | Node.Tuple inner =>
               pbind (ParseNestedQuasiquote fuel inner (L - 1))
                 (fun n => pok (Node.Tuple [Node.Name UNQUOTE, n]))
             | _ => pok (Node.Tuple [Node.Name UNQUOTE, d]))
        ∧ ParseUnquoteSplicing (fuel + 1) [Node.Name UNQUOTE_SPLICING, d] (L - 1)
          = (match d with
             | Node.Tuple inner =>
               pbind (ParseNestedQuasiquote fuel inner (L - 1))
                 (fun n => pok (Node.Tuple [Node.Name UNQUOTE_SPLICING, n]))
             | _ => pok (Node.Tuple [Node.Name UNQUOTE_SPLICING, d])))
    ∧ (∀ rest : List Node,
        ParseNestedQuasiquote (fuel + 1) (Node.Name QUASIQUOTE :: rest) L
          = ParseQuasiquote fuel (Node.Name QUASIQUOTE :: rest) (L + 1)) := by
  refine ⟨⟨rfl, rfl⟩, ?_, ?_, fun rest => rfl⟩
  · rintro rfl
    constructor <;> (cases d <;> simp [ParseUnquote, ParseUnquoteSplicing])
  · intro h2
    have hne : (L - 1 : Int) ≠ 0 := by omega
    constructor <;> (cases d <;> simp [ParseUnquote, ParseUnquoteSplicing, hne])

/-- Witness for C1 at `fuel = 3`, datum `x`, level 1. -/
theorem claim1_unquote_level_engine_witness :
    ParseNestedQuasiquote 4 [Node.Name UNQUOTE, Node.Name "x"] 1
      = ParseUnquote 3 [Node.Name UNQUOTE, Node.Name "x"] (1 - 1) :=
  (claim1_unquote_level_engine 3 (Node.Name "x") 1 (by norm_num)).1.1

/-- Claim C2 counterexample: a quasiquote form entered at level 2
whose template is an atom IS converted into a `Quasiquote` AST node —
`(quasiquote (quasiquote x))` parses to a `Quasiquote` whose datum is
itself a `Quasiquote` node, produced for the inner, level-2 form. -/
theorem claim2_counterexample :
    ParseQuasiquote 8 [Node.Name QUASIQUOTE, Node.Name "x"] 2
        = pok (Node.Quasiquote (Node.Name "x"))
    ∧ ParseNode 10 (Node.Tuple [Node.Name QUASIQUOTE,
          Node.Tuple [Node.Name QUASIQUOTE, Node.Name "x"]])
        = pok (Node.Quasiquote (Node.Quasiquote (Node.Name "x"))) :=
  ⟨rfl, rfl⟩

/-- Claim C2 as amended: a quasiquote form entered at a level greater
than 1 whose template is a list is preserved as literal structural data
(a tuple, never a `Quasiquote` node); a quasiquote form whose template
is an atom is converted into a `Quasiquote` node at any level; and the
outermost form (level 1) always produces a `Quasiquote` node. -/
theorem claim2_amended (fuel : Nat) (e0 : Node) (level : Int) :
    (1 < level → ∀ inner : List Node,
        ParseQuasiquote (fuel + 1) [e0, Node.Tuple inner] level
          = pbind (ParseNestedQuasiquote fuel inner level)
              (fun node => pok (Node.Tuple [e0, node])))
    ∧ (∀ e1 : Node, IsTuple e1 = false →
        ParseQuasiquote (fuel + 1) [e0, e1] level = pok (Node.Quasiquote e1))
    ∧ (∀ (inner : List Node) (r : Node),
        ParseQuasiquote (fuel + 1) [e0, Node.Tuple inner] 1 = pok r →
        ∃ d, r = Node.Quasiquote d) := by
  refine ⟨?_, ?_, ?_⟩
  · intro h inner
    simp [ParseQuasiquote, h]
  · intro e1 he
    cases e1 <;> simp_all [ParseQuasiquote, IsTuple]
  · intro inner r h
    cases hq : ParseNestedQuasiquote fuel inner 1 with
    | none => simp [ParseQuasiquote, hq, pbind, pok] at h
    | some res =>
      cases res with
      | error msg => simp [ParseQuasiquote, hq, pbind, pok, perr] at h
      | ok node =>
        cases node <;> simp [ParseQuasiquote, hq, pbind, pok] at h <;> exact ⟨_, h.symm⟩

/-- Witness for the amended C2 at `fuel = 3`, level 2, list template. -/
theorem claim2_amended_witness :
    ParseQuasiquote 4 [Node.Name QUASIQUOTE, Node.Tuple [Node.Name "y"]] 2
      = pbind (ParseNestedQuasiquote 3 [Node.Name "y"] 2)
          (fun node => pok (Node.Tuple [Node.Name QUASIQUOTE, node])) :=
  (claim2_amended 3 (Node.Name QUASIQUOTE) 2).1 (by norm_num) [Node.Name "y"]

/-- Claim C3 counterexample: `ParseUnquote` at nonzero level on the
tuple `(unquote (unquote x))` returns — in the source, the very same
input tuple after `elements[1] = ...` — a tuple whose contents differ
from the input's original contents, so the source wrote a changed value
into the existing tuple's element storage. -/
theorem claim3_counterexample :
    ParseUnquote 6 [Node.Name UNQUOTE, Node.Tuple [Node.Name UNQUOTE, Node.Name "x"]] 1
        = pok (Node.Tuple [Node.Name UNQUOTE, Node.Unquote (Node.Name "x")])
    ∧ Node.Tuple [Node.Name UNQUOTE, Node.Unquote (Node.Name "x")]
        ≠ Node.Tuple [Node.Name UNQUOTE, Node.Tuple [Node.Name UNQUOTE, Node.Name "x"]] :=
  ⟨rfl, by simp⟩

/-- Claim C3 as amended: quasiquote handling does mutate raw nodes in
place — `ParseUnquote` and `ParseUnquoteSplicing` at nonzero level, and
`ParseQuasiquote` at level above 1, overwrite the second element of the
existing input tuple's storage with the rescanned datum and return that
same tuple. -/
theorem claim3_amended (fuel : Nat) (e0 : Node) (inner : List Node) (level : Int) :
    (level ≠ 0 →
        ParseUnquote (fuel + 1) [e0, Node.Tuple inner] level
          = pbind (ParseNestedQuasiquote fuel inner level)
              (fun n => pok (Node.Tuple [e0, n]))
        ∧ ParseUnquoteSplicing (fuel + 1) [e0, Node.Tuple inner] level
          = pbind (ParseNestedQuasiquote fuel inner level)
              (fun n => pok (Node.Tuple [e0, n])))
    ∧ (1 < level →
        ParseQuasiquote (fuel + 1) [e0, Node.Tuple inner] level
          = pbind (ParseNestedQuasiquote fuel inner level)
              (fun n => pok (Node.Tuple [e0, n]))) := by
  constructor
  · intro h
    constructor <;> simp [ParseUnquote, ParseUnquoteSplicing, h]
  · intro h
    simp [ParseQuasiquote, h]

/-- Witness for the amended C3 at `fuel = 3`, level 1. -/
theorem claim3_amended_witness :
    ParseUnquote 4 [Node.Name UNQUOTE, Node.Tuple [Node.Name "a"]] 1
      = pbind (ParseNestedQuasiquote 3 [Node.Name "a"] 1)
          (fun n => pok (Node.Tuple [Node.Name UNQUOTE, n])) :=
  ((claim3_amended 3 (Node.Name UNQUOTE) [Node.Name "a"] 1).1 (by norm_num)).1

/-- Claim C4: a curried define repeatedly unwraps one layer, taking the
innermost identifier as the function name and building nested lambdas
outward: `(define ((f x) y) b)` yields a `Define` of `f` whose value is
a lambda over `x` whose body is a lambda over `y` whose body holds `b`;
after erasing the `Function` wrapper and singleton-block wrappers it is
the same lambda nesting as `(define f (lambda (x) (lambda (y) b)))`. -/
theorem claim4_curried_define (fuel : Nat) (f x y : String) (b b' : Node)
    (h : ParseNode (fuel + 1) b = pok b') :
    ParseNode (fuel + 5) (Node.Tuple [Node.Name DEFINE,
        Node.Tuple [Node.Tuple [Node.Name f, Node.Name x], Node.Name y], b])
      = pok (Node.Define (Node.Name f) (Node.Function (Node.Name f)
          (Node.Lambda (Node.Pair (Node.Name x) Node.NilPair)
            (Node.Lambda (Node.Pair (Node.Name y) Node.NilPair) (Node.Block [b'])))))
    ∧ ParseNode (fuel + 12) (Node.Tuple [Node.Name DEFINE, Node.Name f,
        Node.Tuple [Node.Name LAMBDA, Node.Tuple [Node.Name x],
          Node.Tuple [Node.Name LAMBDA, Node.Tuple [Node.Name y], b]]])
      = pok (Node.Define (Node.Name f)
          (Node.Lambda (Node.Pair (Node.Name x) Node.NilPair)
            (Node.Block [Node.Lambda (Node.Pair (Node.Name y) Node.NilPair) (Node.Block [b'])])))
    ∧ StripSugar (Node.Function (Node.Name f)
          (Node.Lambda (Node.Pair (Node.Name x) Node.NilPair)
            (Node.Lambda (Node.Pair (Node.Name y) Node.NilPair) (Node.Block [b']))))
        = StripSugar (Node.Lambda (Node.Pair (Node.Name x) Node.NilPair)
            (Node.Block [Node.Lambda (Node.Pair (Node.Name y) Node.NilPair) (Node.Block [b'])])) := by
  refine ⟨?_, ?_, ?_⟩
  · have e1 : ParseNode (fuel + 5) (Node.Tuple [Node.Name DEFINE,
        Node.Tuple [Node.Tuple [Node.Name f, Node.Name x], Node.Name y], b])
      = pbind (pbind (ParseNode (fuel + 1) b) (fun v => pok [v]))
          (fun body => pok (Node.Define (Node.Name f) (Node.Function (Node.Name f)
            (Node.Lambda (Node.Pair (Node.Name x) Node.NilPair)
              (Node.Lambda (Node.Pair (Node.Name y) Node.NilPair) (Node.Block body)))))) := rfl
    rw [e1, h]
    rfl
  · have e2 : ParseNode (fuel + 12) (Node.Tuple [Node.Name DEFINE, Node.Name f,
        Node.Tuple [Node.Name LAMBDA, Node.Tuple [Node.Name x],
          Node.Tuple [Node.Name LAMBDA, Node.Tuple [Node.Name y], b]]])
      = pbind (pbind (pbind (pbind (pbind (ParseNode (fuel + 1) b) (fun v => pok [v]))
          (fun body2 => pok (Node.Lambda (Node.Pair (Node.Name y) Node.NilPair) (Node.Block body2))))
          (fun v => pok [v]))
          (fun body => pok (Node.Lambda (Node.Pair (Node.Name x) Node.NilPair) (Node.Block body))))
          (fun value => pok (Node.Define (Node.Name f) value)) := rfl
    rw [e2, h]
    rfl
  · simp [StripSugar]

/-- Witness for C4 at `fuel = 0`, `b` a number literal. -/
theorem claim4_curried_define_witness :
    ParseNode (0 + 5) (Node.Tuple [Node.Name DEFINE,
        Node.Tuple [Node.Tuple [Node.Name "f", Node.Name "x"], Node.Name "y"], Node.Number 1])
      = pok (Node.Define (Node.Name "f") (Node.Function (Node.Name "f")
          (Node.Lambda (Node.Pair (Node.Name "x") Node.NilPair)
            (Node.Lambda (Node.Pair (Node.Name "y") Node.NilPair)
              (Node.Block [Node.Number 1]))))) :=
  (claim4_curried_define 0 "f" "x" "y" (Node.Number 1) (Node.Number 1) rfl).1

/-- Claim C5: select-clause validation.  A select clause that is not a
list, or is an empty list, is rejected; a clause whose analyzed first
element satisfies the send/receive/default head contract is accepted
and recorded, with validation continuing on the remaining clauses; a
clause whose analyzed first element violates the contract makes the
analysis fail with a syntax error. -/
theorem claim5_select_clause_contract :
    (∀ (fuel : Nat) (c : Node) (cs : List Node),
        ParseTuple (fuel + 2) (Node.Name SELECT :: c :: cs)
          = pbind (ParseSelectClauses fuel (c :: cs)) (fun clauses => pok (Node.Select clauses)))
    ∧ (∀ (fuel : Nat) (c : Node) (rest : List Node), IsTuple c = false →
        ParseSelectClauses (fuel + 1) (c :: rest) = perr "select: bad syntax, given: ")
    ∧ (∀ (fuel : Nat) (rest : List Node),
        ParseSelectClauses (fuel + 1) (Node.Tuple [] :: rest)
          = perr "select: bad syntax (missing select cases), given: ()")
    ∧ (∀ (fuel : Nat) (e : Node) (es rest parsed : List Node),
        ParseList fuel (e :: es) = pok parsed → HeadOk parsed = true →
        ParseSelectClauses (fuel + 1) (Node.Tuple (e :: es) :: rest)
          = pbind (ParseSelectClauses fuel rest) (fun others => pok (parsed :: others)))
    ∧ (∀ (fuel : Nat) (e : Node) (es rest parsed : List Node),
        ParseList fuel (e :: es) = pok parsed → HeadOk parsed = false →
        isErrP (ParseSelectClauses (fuel + 1) (Node.Tuple (e :: es) :: rest)) = true) := by
  refine ⟨fun _ _ _ => rfl, ?_, fun _ _ => rfl, ?_, ?_⟩
  · intro fuel c rest h
    cases c <;> first | rfl | simp [IsTuple] at h
  · intro fuel e es rest parsed hpl hok
    have e1 : ParseSelectClauses (fuel + 1) (Node.Tuple (e :: es) :: rest)
      = pbind (ParseList fuel (e :: es)) (fun parsed =>
          match parsed with
          | Node.Call (Node.Name id) args :: _ =>
            if id = CHAN_SEND then
              if args.length = 2 then
                pbind (ParseSelectClauses fuel rest) fun others => pok (parsed :: others)
              else perr (CHAN_SEND ++ ": arguments mismatch, expected 2")
            else if id = CHAN_RECV then
              if args.length = 1 then
                pbind (ParseSelectClauses fuel rest) fun others => pok (parsed :: others)
              else perr (CHAN_SEND ++ ": arguments mismatch, expected 1")
            else perr "select: bad syntax, given: "
          | Node.Name id :: _ =>
            if id = DEFAULT then
              pbind (ParseSelectClauses fuel rest) fun others => pok (parsed :: others)
            else perr "select: bad syntax, given: "
          | _ => perr "select: bad syntax, given: ") := rfl
    rw [e1, hpl]
    simp only [pbind, pok]
    rcases parsed with _ | ⟨p0, tail⟩
    · simp [HeadOk] at hok
    · cases p0 <;> simp [HeadOk] at hok
      case Call callee args =>
        cases callee <;> simp [HeadOk] at hok
        case Name id =>
          rcases hok with ⟨rfl, hlen⟩ | ⟨rfl, hlen⟩ <;>
            simp [CHAN_SEND, CHAN_RECV, hlen]
      case Name id =>
        subst hok
        rfl
  · intro fuel e es rest parsed hpl hok
    have e1 : ParseSelectClauses (fuel + 1) (Node.Tuple (e :: es) :: rest)
      = pbind (ParseList fuel (e :: es)) (fun parsed =>
          match parsed with
          | Node.Call (Node.Name id) args :: _ =>
            if id = CHAN_SEND then
              if args.length = 2 then
                pbind (ParseSelectClauses fuel rest) fun others => pok (parsed :: others)
              else perr (CHAN_SEND ++ ": arguments mismatch, expected 2")
            else if id = CHAN_RECV then
              if args.length = 1 then
                pbind (ParseSelectClauses fuel rest) fun others => pok (parsed :: others)
              else perr (CHAN_SEND ++ ": arguments mismatch, expected 1")
            else perr "select: bad syntax, given: "
          | Node.Name id :: _ =>
            if id = DEFAULT then
              pbind (ParseSelectClauses fuel rest) fun others => pok (parsed :: others)
            else perr "select: bad syntax, given: "
          | _ => perr "select: bad syntax, given: ") := rfl
    rw [e1, hpl]
    simp only [pbind, pok]
    rcases parsed with _ | ⟨p0, tail⟩
    · rfl
    · cases p0 <;> try rfl
      case Call callee args =>
        cases callee <;> try rfl
        case Name id =>
          simp [HeadOk] at hok
          by_cases hs : id = CHAN_SEND
          · subst hs
            have : ¬(args.length = 2) := fun hl => (hok.1 rfl) hl
            simp [this, isErrP, perr]
          · by_cases hrcv : id = CHAN_RECV
            · subst hrcv
              have : ¬(args.length = 1) := fun hl => (hok.2 rfl) hl
              simp [hs, this, isErrP, perr]
            · simp [hs, hrcv, isErrP, perr]
      case Name id =>
        simp [HeadOk] at hok
        simp [hok, isErrP, perr]

/-- Witness for C5: the clause `((chan-recv ch) x)` is accepted. -/
theorem claim5_select_clause_contract_witness :
    ParseSelectClauses (8 + 1)
        [Node.Tuple [Node.Tuple [Node.Name CHAN_RECV, Node.Name "ch"], Node.Name "x"]]
      = pbind (ParseSelectClauses 8 []) (fun others =>
          pok ([Node.Call (Node.Name CHAN_RECV) [Node.Name "ch"], Node.Name "x"] :: others)) :=
  claim5_select_clause_contract.2.2.2.1 8
    (Node.Tuple [Node.Name CHAN_RECV, Node.Name "ch"]) [Node.Name "x"] []
    [Node.Call (Node.Name CHAN_RECV) [Node.Name "ch"], Node.Name "x"] rfl rfl

/-- The binding loop rejects a binding list containing a binding that
is not a two-element list headed by an identifier: whatever the fuel,
any produced outcome is an error. -/
theorem ParseBindingsBadShape (bs : List Node) :
    ∀ (fuel : Nat) (r : Except String (List Node × List Node)),
      bs.any (fun b => !BindingOk b) = true →
      ParseBindings fuel bs = some r → ∃ msg, r = Except.error msg := by
  induction bs with
  | nil => intro fuel r h _; simp at h
  | cons b rest ih =>
    intro fuel r hany hr
    cases fuel with
    | zero => simp [ParseBindings] at hr
    | succ fuel =>
      cases b <;> try exact ⟨_, (Option.some.inj hr).symm⟩
      case Tuple es =>
        rcases es with _ | ⟨b1, rest2⟩
        · exact ⟨_, (Option.some.inj hr).symm⟩
        cases b1 <;> try exact ⟨_, (Option.some.inj hr).symm⟩
        case Name x =>
          rcases rest2 with _ | ⟨b2, rest3⟩
          · exact ⟨_, (Option.some.inj hr).symm⟩
          rcases rest3 with _ | ⟨b3, rest4⟩
          swap
          · exact ⟨_, (Option.some.inj hr).symm⟩
          · have hrest : rest.any (fun b => !BindingOk b) = true := by
              simpa [BindingOk] using hany
            have e1 : ParseBindings (fuel + 1) (Node.Tuple [Node.Name x, b2] :: rest)
              = pbind (ParseNode fuel b2) (fun v =>
                  pbind (ParseBindings fuel rest) (fun pv =>
                    pok (Node.Name x :: pv.1, v :: pv.2))) := rfl
            rw [e1] at hr
            cases hN : ParseNode fuel b2 with
            | none => rw [hN] at hr; simp [pbind] at hr
            | some res =>
              cases res with
              | error m => rw [hN] at hr; simp [pbind] at hr; exact ⟨m, hr.symm⟩
              | ok v =>
                rw [hN] at hr
                simp only [pbind] at hr
                cases hB : ParseBindings fuel rest with
                | none => rw [hB] at hr; simp at hr
                | some r2 =>
                  obtain ⟨msg, rfl⟩ := ih fuel r2 hrest hB
                  rw [hB] at hr
                  simp [pok] at hr
                  exact ⟨msg, hr.symm⟩

/-- Claim C6: a let/let*/letrec form with fewer than three elements, or
whose second element is not a list, or whose binding list contains a
binding that is not a two-element identifier-headed list, fails with a
syntax error; otherwise the corresponding node carries the binding
names and analyzed initializers, in original order, as parallel
sequences, with the remaining elements analyzed as the body block. -/
theorem claim6_let_family_contract (w : String)
    (hw : w = LET ∨ w = LET_STAR ∨ w = LET_REC) :
    (∀ fuel : Nat,
        ParseLetFamily (fuel + 1) [Node.Name w] = perr "bad syntax, no expression in body"
        ∧ ∀ b : Node, ParseLetFamily (fuel + 1) [Node.Name w, b]
            = perr "bad syntax, no expression in body")
    ∧ (∀ (fuel : Nat) (rest : List Node),
        ParseTuple (fuel + 1) (Node.Name w :: rest) = ParseLetFamily fuel (Node.Name w :: rest))
    ∧ (∀ (fuel : Nat) (b r1 : Node) (rs : List Node), IsTuple b = false →
        ParseLetFamily (fuel + 1) (Node.Name w :: b :: r1 :: rs)
          = perr "bad syntax, expected bindings")
    ∧ (∀ (fuel : Nat) (bindings : List Node) (r1 : Node) (rs : List Node)
          (r : Except String Node),
        bindings.any (fun b => !BindingOk b) = true →
        ParseLetFamily fuel (Node.Name w :: Node.Tuple bindings :: r1 :: rs) = some r →
        ∃ msg, r = Except.error msg)
    ∧ (∀ (fuel : Nat) (bindings : List Node) (r1 : Node) (rs ps vs body : List Node),
        ParseBindings fuel bindings = pok (ps, vs) →
        ParseList fuel (r1 :: rs) = pok body →
        ParseLetFamily (fuel + 1) (Node.Name w :: Node.Tuple bindings :: r1 :: rs)
          = pok (MakeLet w ps vs (Node.Block body)))
    ∧ (∀ (fuel : Nat) (x : String) (e : Node) (bs : List Node),
        ParseBindings (fuel + 1) (Node.Tuple [Node.Name x, e] :: bs)
          = pbind (ParseNode fuel e) (fun v =>
              pbind (ParseBindings fuel bs) (fun pv => pok (Node.Name x :: pv.1, v :: pv.2))))
    ∧ (∀ fuel : Nat, ParseBindings (fuel + 1) [] = pok ([], [])) := by
  refine ⟨fun _ => ⟨rfl, fun b => by cases b <;> rfl⟩, ?_, ?_, ?_, ?_,
    fun _ _ _ _ => rfl, fun _ => rfl⟩
  · intro fuel rest
    rcases hw with rfl | rfl | rfl <;> rfl
  · intro fuel b r1 rs h
    cases b <;> first | rfl | simp [IsTuple] at h
  · intro fuel bindings r1 rs r hany hr
    cases fuel with
    | zero => simp [ParseLetFamily] at hr
    | succ fuel =>
      have e1 : ParseLetFamily (fuel + 1) (Node.Name w :: Node.Tuple bindings :: r1 :: rs)
        = pbind (ParseBindings fuel bindings) (fun pats =>
            pbind (ParseList fuel (r1 :: rs)) (fun body =>
              if w = LET then pok (Node.Let pats.1 pats.2 (Node.Block body))
              else if w = LET_STAR then pok (Node.LetStar pats.1 pats.2 (Node.Block body))
              else if w = LET_REC then pok (Node.LetRec pats.1 pats.2 (Node.Block body))
              else perr "should not be here")) := rfl
      rw [e1] at hr
      cases hB : ParseBindings fuel bindings with
      | none => rw [hB] at hr; simp [pbind] at hr
      | some res =>
        cases res with
        | error m =>
          rw [hB] at hr; simp [pbind] at hr; exact ⟨m, hr.symm⟩
        | ok pats =>
          obtain ⟨msg, h'⟩ := ParseBindingsBadShape bindings fuel (Except.ok pats) hany hB
          simp at h'
  · intro fuel bindings r1 rs ps vs body h1 h2
    have e1 : ParseLetFamily (fuel + 1) (Node.Name w :: Node.Tuple bindings :: r1 :: rs)
      = pbind (ParseBindings fuel bindings) (fun pats =>
          pbind (ParseList fuel (r1 :: rs)) (fun body =>
            if w = LET then pok (Node.Let pats.1 pats.2 (Node.Block body))
            else if w = LET_STAR then pok (Node.LetStar pats.1 pats.2 (Node.Block body))
            else if w = LET_REC then pok (Node.LetRec pats.1 pats.2 (Node.Block body))
            else perr "should not be here")) := rfl
    rw [e1, h1, h2]
    simp only [pbind, pok]
    rcases hw with rfl | rfl | rfl <;> simp [MakeLet, LET, LET_STAR, LET_REC]

/-- Witness for C6: `(let ((x 1)) x)` yields the expected `Let` node. -/
theorem claim6_let_family_contract_witness :
    ParseLetFamily (3 + 1)
        [Node.Name "let", Node.Tuple [Node.Tuple [Node.Name "x", Node.Number 1]], Node.Name "x"]
      = pok (MakeLet "let" [Node.Name "x"] [Node.Number 1] (Node.Block [Node.Name "x"])) :=
  (claim6_let_family_contract "let" (Or.inl rfl)).2.2.2.2.1 3
    [Node.Tuple [Node.Name "x", Node.Number 1]] (Node.Name "x") []
    [Node.Name "x"] [Node.Number 1] [Node.Name "x"] rfl rfl

/-- Claim C7: the dispatcher returns non-list nodes unchanged, rejects
the empty list, rejects a head that is neither an identifier nor a list
with a "not a procedure" error, and parses a list headed by a
non-keyword identifier or by a list as a generic call whose callee is
the analyzed head and whose arguments are the remaining elements
analyzed in left-to-right order. -/
theorem claim7_dispatcher :
    (∀ (fuel : Nat) (n : Node), IsTuple n = false → ParseNode (fuel + 1) n = pok n)
    ∧ (∀ (fuel : Nat) (es : List Node),
        ParseNode (fuel + 1) (Node.Tuple es) = ParseTuple fuel es)
    ∧ (∀ fuel : Nat, ParseTuple (fuel + 1) [] = perr "syntax error, empty list")
    ∧ (∀ (fuel : Nat) (h : Node) (rest : List Node), IsName h = false → IsTuple h = false →
        ParseTuple (fuel + 1) (h :: rest) = perr "not a procedure")
    ∧ (∀ (fuel : Nat) (id : String) (rest : List Node), id ∉ specialForms →
        ParseTuple (fuel + 1) (Node.Name id :: rest) = ParseCall fuel (Node.Name id :: rest))
    ∧ (∀ (fuel : Nat) (inner rest : List Node),
        ParseTuple (fuel + 1) (Node.Tuple inner :: rest)
          = ParseCall fuel (Node.Tuple inner :: rest))
    ∧ (∀ (fuel : Nat) (c : Node) (args : List Node),
        ParseCall (fuel + 1) (c :: args)
          = pbind (ParseNode fuel c) (fun callee =>
              pbind (ParseList fuel args) (fun vs => pok (Node.Call callee vs))))
    ∧ (∀ (fuel : Nat) (n : Node) (ns : List Node),
        ParseList (fuel + 1) (n :: ns)
          = pbind (ParseNode fuel n) (fun v =>
              pbind (ParseList fuel ns) (fun vs => pok (v :: vs)))) := by
  refine ⟨?_, fun _ _ => rfl, fun _ => rfl, ?_, ?_, fun _ _ _ => rfl,
    fun _ _ _ => rfl, fun _ _ _ => rfl⟩
  · intro fuel n h
    cases n <;> first | rfl | simp [IsTuple] at h
  · intro fuel h rest hn ht
    cases h <;> first | rfl | simp [IsName, IsTuple] at hn ht
  · intro fuel id rest hmem
    simp [specialForms, DEFINE, BEGIN, LAMBDA, LET, LET_STAR, LET_REC, GO, SELECT, IF, SET,
      APPLY, QUOTE, QUASIQUOTE, UNQUOTE, UNQUOTE_SPLICING, DELAY, FORCE] at hmem
    simp [ParseTuple, DEFINE, BEGIN, LAMBDA, LET, LET_STAR, LET_REC, GO, SELECT, IF, SET,
      APPLY, QUOTE, QUASIQUOTE, UNQUOTE, UNQUOTE_SPLICING, DELAY, FORCE, hmem]

/-- Witness for C7: the non-keyword identifier `f` heads a generic
call. -/
theorem claim7_dispatcher_witness :
    ParseTuple (3 + 1) [Node.Name "f", Node.Number 1]
      = ParseCall 3 [Node.Name "f", Node.Number 1] :=
  claim7_dispatcher.2.2.2.2.1 3 "f" [Node.Number 1] (by decide)

/-- Claim C8: an `unquote` or `unquote-splicing` form reached by the
dispatcher at top level, with no enclosing quasiquote, fails with a
"not in quasiquote" syntax error, whatever its remaining elements, and
no AST node is produced for it. -/
theorem claim8_unquote_top_level (fuel : Nat) (rest : List Node) :
    ParseTuple (fuel + 1) (Node.Name UNQUOTE :: rest) = perr "unquote: not in quasiquote"
    ∧ ParseTuple (fuel + 1) (Node.Name UNQUOTE_SPLICING :: rest)
        = perr "unquote-splicing: not in quasiquote"
    ∧ ParseNode (fuel + 2) (Node.Tuple (Node.Name UNQUOTE :: rest))
        = perr "unquote: not in quasiquote"
    ∧ ParseNode (fuel + 2) (Node.Tuple (Node.Name UNQUOTE_SPLICING :: rest))
        = perr "unquote-splicing: not in quasiquote" :=
  ⟨rfl, rfl, rfl, rfl⟩

/-- Claim C9: `(begin)` is accepted and yields a `Begin` node with an
empty block, while every other special-form keyword alone in a list is
a syntax error. -/
theorem claim9_begin_empty :
    (∀ fuel : Nat, ParseNode (fuel + 4) (Node.Tuple [Node.Name BEGIN])
        = pok (Node.Begin (Node.Block [])))
    ∧ ([DEFINE, LAMBDA, LET, LET_STAR, LET_REC, GO, SELECT, IF, SET, APPLY, QUOTE,
        QUASIQUOTE, UNQUOTE, UNQUOTE_SPLICING, DELAY, FORCE].all
          (fun k => isErrP (ParseNode 6 (Node.Tuple [Node.Name k])))) = true :=
  ⟨fun _ => rfl, rfl⟩

/-- Claim C10: an empty list inside a quasiquote template is returned
unchanged as literal structural data by the nested-quasiquote scanner,
while the same empty list reaching the dispatcher fails with the
empty-list syntax error. -/
theorem claim10_empty_list_in_template (fuel : Nat) (level : Int) :
    ParseNestedQuasiquote (fuel + 1) [] level = pok (Node.Tuple [])
    ∧ ParseTuple (fuel + 1) [] = perr "syntax error, empty list"
    ∧ ParseNode (fuel + 2) (Node.Tuple []) = perr "syntax error, empty list" :=
  ⟨rfl, rfl, rfl⟩

end LispEx
